import Mathlib

/-!
Verification of the color-contrast core of `src/widget-src/code.tsx`.

Strings are modelled as `List Char` (JS strings over their code units; all the
inputs of interest are ASCII).  JS numbers that can be NaN are modelled as
`Option ℝ`, with `none` playing the role of NaN: in the code below NaN only
ever arises from `parseInt` returning NaN, and every JS arithmetic operation
and comparison the widget performs maps NaN inputs to a NaN output (for `<`,
to `false`), which is exactly how the `Option` plumbing below behaves.
Thrown JS errors are modelled with `Except String`.
-/

namespace ColorContrast

/-- Character-class test for the regex character class [0-9a-f]
(code points 48-57 and 97-102). -/
def isHexDigit (c : Char) : Bool :=
  decide ((48 ≤ c.toNat ∧ c.toNat ≤ 57) ∨ (97 ≤ c.toNat ∧ c.toNat ≤ 102))

/-- ASCII fragment of `String.prototype.toLowerCase` (the widget only feeds it
hex-color-like ASCII text): maps A-Z (65-90) to a-z, fixes everything else. -/
def toLowerAscii (c : Char) : Char :=
  if 65 ≤ c.toNat ∧ c.toNat ≤ 90 then Char.ofNat (c.toNat + 32) else c

/-- `toLowerCase` over the whole string. -/
def toLowerList (l : List Char) : List Char :=
  l.map toLowerAscii

/-- JS `input.replace("#", "")`: removes the FIRST occurrence of '#',
wherever it is in the string (not only a leading one). -/
def stripHash : List Char → List Char
  | [] => []
  | c :: cs => if c = '#' then cs else c :: stripHash cs

/-- The sanitisation the widget performs before validating/converting
(code.tsx lines 19, 29, 49): strip the first '#', then lower-case. -/
def sanitiseHex (l : List Char) : List Char :=
  toLowerList (stripHash l)

/-- `regex.test` for the UNANCHORED pattern [0-9a-f]\x7b6\x7d (code.tsx line
40): true iff at some position the next six characters are all in the class. -/
def hasHexRun : List Char → Bool
  | [] => false
  | c :: cs =>
    (((c :: cs).take 6).length == 6 && ((c :: cs).take 6).all isHexDigit)
      || hasHexRun cs

/-- `validateHexString` (code.tsx lines 39-45):
`input.length === 6 || regex.test(input)`. -/
def validateHexString (input : List Char) : Bool :=
  input.length == 6 || hasHexRun input

/-- The spec-level `isValidHex`: the validator as actually reached from user
input, i.e. `validateHexString` applied to the sanitised string (the callers
at code.tsx lines 18-36 sanitise before validating). -/
def isValidHex (input : List Char) : Bool :=
  validateHexString (sanitiseHex input)

/-- Value of a single hexadecimal digit as JS `parseInt(_, 16)` accepts them:
0-9 (48-57), a-f (97-102), A-F (65-70). -/
def hexVal (c : Char) : Option Nat :=
  if 48 ≤ c.toNat ∧ c.toNat ≤ 57 then some (c.toNat - 48)
  else if 97 ≤ c.toNat ∧ c.toNat ≤ 102 then some (c.toNat - 87)
  else if 65 ≤ c.toNat ∧ c.toNat ≤ 70 then some (c.toNat - 55)
  else none

/-- Whitespace stripped by `parseInt` (ASCII fragment plus NBSP and BOM). -/
def isJsWhitespace (c : Char) : Bool :=
  decide (c.toNat = 9 ∨ c.toNat = 10 ∨ c.toNat = 11 ∨ c.toNat = 12 ∨
    c.toNat = 13 ∨ c.toNat = 32 ∨ c.toNat = 160 ∨ c.toNat = 65279)

/-- Optional sign at the front of a `parseInt` argument; returns the
negativity flag and the rest. -/
def stripSign (l : List Char) : Bool × List Char :=
  match l with
  | [] => (false, [])
  | c :: cs =>
    if c = '-' then (true, cs)
    else if c = '+' then (false, cs)
    else (false, c :: cs)

/-- For radix 16, `parseInt` strips a leading 0x / 0X prefix. -/
def strip0x (l : List Char) : List Char :=
  match l with
  | c0 :: c1 :: rest => if c0 = '0' ∧ (c1 = 'x' ∨ c1 = 'X') then rest else l
  | _ => l

/-- Value of the longest prefix of hex digits, accumulator style. -/
def hexPrefixVal : List Char → Nat → Nat
  | [], acc => acc
  | c :: cs, acc =>
    match hexVal c with
    | some d => hexPrefixVal cs (16 * acc + d)
    | none => acc

/-- JS `parseInt(s, 16)` (ECMA-262 sect. 19.2.5): trim whitespace, take an
optional sign, strip a 0x/0X prefix, then read the longest prefix of hex
digits; NaN (here `none`) when that prefix is empty. -/
def jsParseIntHex (s : List Char) : Option Int :=
  let trimmed := s.dropWhile isJsWhitespace
  let signed := stripSign trimmed
  let digitsPart := strip0x signed.2
  match digitsPart with
  | [] => none
  | c :: _ =>
    if (hexVal c).isSome then
      if signed.1 then some (-(hexPrefixVal digitsPart 0 : Int))
      else some ((hexPrefixVal digitsPart 0 : Int))
    else none

/-- The three `parseInt(chars[i] + chars[i+1], 16)` calls of `convertHexToRgb`
(code.tsx lines 53-57).  Whenever the validator accepted the string its length
is at least 6, so `take 2` after `drop i` is exactly the two-character
concatenation the source builds. -/
def rgbChannelsOf (l : List Char) : List (Option Int) :=
  [jsParseIntHex (l.take 2),
   jsParseIntHex ((l.drop 2).take 2),
   jsParseIntHex ((l.drop 4).take 2)]

/-- `convertHexToRgb` (code.tsx lines 48-61). -/
def convertHexToRgb (input : List Char) : Except String (List (Option Int)) :=
  let sanitisedHex := sanitiseHex input
  if validateHexString sanitisedHex then
    Except.ok (rgbChannelsOf sanitisedHex)
  else
    Except.error "Invalid HEX input"

/-- The union type `ColorContrastRatioCalculatorInput = string | Array<number>`
(code.tsx line 4).  Array entries are JS numbers, so possibly NaN (`none`). -/
inductive ColorContrastRatioCalculatorInput where
  | str (s : List Char)
  | arr (l : List (Option ℝ))

/-- The body of `calculateRelativeLuminanceComponent1` (code.tsx lines 90-96)
on an actual (non-NaN) number. -/
noncomputable def luminanceComponent1Val (rgbValue : ℝ) : ℝ :=
  let relativeRgb := rgbValue / 255
  if relativeRgb ≤ 0.03928 then relativeRgb / 12.92
  else ((relativeRgb + 0.055) / 1.055) ^ (2.4 : ℝ)

/-- `calculateRelativeLuminanceComponent1` (code.tsx lines 90-96).  A NaN
argument yields NaN: `NaN / 255 = NaN`, the comparison with 0.03928 is false,
and the power of a NaN base is NaN. -/
noncomputable def calculateRelativeLuminanceComponent1 (rgbValue : Option ℝ) :
    Option ℝ :=
  rgbValue.map luminanceComponent1Val

/-- `calculateRelativeLuminanceComponent2` (code.tsx lines 98-102).  Out-of-
range indexing (`input[i]` on a short array) gives `undefined`, whose
component-1 image is NaN, hence the `none` default; the weighted sum is NaN
exactly when some component is NaN. -/
noncomputable def calculateRelativeLuminanceComponent2 (input : List (Option ℝ)) :
    Option ℝ :=
  match calculateRelativeLuminanceComponent1 (input.getD 0 none),
        calculateRelativeLuminanceComponent1 (input.getD 1 none),
        calculateRelativeLuminanceComponent1 (input.getD 2 none) with
  | some r, some g, some b => some (0.2126 * r + 0.7152 * g + 0.0722 * b)
  | _, _, _ => none

/-- `calculateRelativeLuminance` (code.tsx lines 79-88).  An array input is
used only when its length is 3; otherwise the string branch is tried and a
non-string raises the `InvalidInputType` error. -/
noncomputable def calculateRelativeLuminance
    (input : ColorContrastRatioCalculatorInput) : Except String (Option ℝ) :=
  match input with
  | .arr l =>
    if l.length = 3 then Except.ok (calculateRelativeLuminanceComponent2 l)
    else Except.error "Input value must be a string"
  | .str s =>
    match convertHexToRgb s with
    | .error e => Except.error e
    | .ok rgb =>
      Except.ok (calculateRelativeLuminanceComponent2
        (rgb.map (Option.map (fun i : ℤ => (i : ℝ)))))

/-- `Math.round` on a non-NaN number: floor of x + 1/2 (half-up, also for
negatives). -/
noncomputable def jsRound (x : ℝ) : ℝ :=
  ((⌊x + 1 / 2⌋ : ℤ) : ℝ)

/-- `colorContrastRatioCalculator` (code.tsx lines 64-76).  When either
luminance is NaN the comparison `bg < fg` is false, the else branch runs, and
the division, multiplication, `Math.round` and final division all propagate
NaN, so the result is NaN (`none`). -/
noncomputable def colorContrastRatioCalculator
    (foregroundColor backgroundColor : ColorContrastRatioCalculatorInput) :
    Except String (Option ℝ) :=
  match calculateRelativeLuminance foregroundColor with
  | .error e => Except.error e
  | .ok fg =>
    match calculateRelativeLuminance backgroundColor with
    | .error e => Except.error e
    | .ok bg =>
      match fg, bg with
      | some fgv, some bgv =>
        Except.ok (some
          (if bgv < fgv then jsRound ((fgv + 0.05) / (bgv + 0.05) * 100) / 100
           else jsRound ((bgv + 0.05) / (fgv + 0.05) * 100) / 100))
      | _, _ => Except.ok none

/-- The widget state the two input-commit handlers touch (code.tsx lines
12-13): the committed foreground and background hex strings. -/
structure WidgetState where
  foreground : List Char
  background : List Char
deriving DecidableEq

/-- `validateForegroundInput` (code.tsx lines 18-26), with `setForeground`
modelled as updating the state and `figma.notify` as emitting the message. -/
def validateForegroundInput (st : WidgetState) (input : List Char) :
    WidgetState × Option String :=
  if validateHexString (sanitiseHex input) then
    ({ st with foreground := input }, none)
  else
    (st, some "Please enter a valid HEX value")

/-- `validateBackgroundInput` (code.tsx lines 28-36). -/
def validateBackgroundInput (st : WidgetState) (input : List Char) :
    WidgetState × Option String :=
  if validateHexString (sanitiseHex input) then
    ({ st with background := input }, none)
  else
    (st, some "Please enter a valid HEX value")

/-- Modelled from the spec's wording (sect. 4.3), for comparison with the
source-derived luminance: the per-channel sRGB linearisation of a normalized
value. -/
noncomputable def specLinearComponent (n : ℝ) : ℝ :=
  if n ≤ 0.03928 then n / 12.92
  else ((n + 0.055) / 1.055) ^ (2.4 : ℝ)

/-- Modelled from the spec's wording (sect. 4.3): weighted combination of the
three linearised channels. -/
noncomputable def specRelativeLuminance (r g b : ℝ) : ℝ :=
  0.2126 * specLinearComponent (r / 255)
    + 0.7152 * specLinearComponent (g / 255)
    + 0.0722 * specLinearComponent (b / 255)

/-- The spec's reading of the regex test: the string contains six consecutive
characters of the class [0-9a-f] somewhere. -/
def HasSixHexRun (l : List Char) : Prop :=
  ∃ pre mid post : List Char,
    l = pre ++ mid ++ post ∧ mid.length = 6 ∧ mid.all isHexDigit = true

/-- A valid color input in the sense of the spec (sect. 3): a hex string of
exactly six case-insensitive hex digits with an optional leading '#', or a
triple of numbers in [0, 255]. -/
def ValidColor : ColorContrastRatioCalculatorInput → Prop
  | .str s => ∃ hex : List Char,
      (s = hex ∨ s = '#' :: hex) ∧ hex.length = 6 ∧
        (toLowerList hex).all isHexDigit = true
  | .arr l => ∃ r g b : ℝ,
      l = [some r, some g, some b] ∧
        0 ≤ r ∧ r ≤ 255 ∧ 0 ≤ g ∧ g ≤ 255 ∧ 0 ≤ b ∧ b ≤ 255

end ColorContrast

namespace ColorContrast

example : validateHexString "ffffff".data = true := by decide
example : validateHexString "zzzzzz".data = true := by decide
example : validateHexString "ffff".data = false := by decide
example : validateHexString "fffffff".data = true := by decide
example : isValidHex "#ffffff".data = true := by decide
example : jsParseIntHex ['f', 'z'] = some 15 := by decide
example : jsParseIntHex ['z', 'z'] = none := by decide
example : convertHexToRgb "zzzzzz".data = .ok [none, none, none] := rfl
example : convertHexToRgb "#FFFFFF".data = .ok [some 255, some 255, some 255] := rfl
example : convertHexToRgb "abc#def".data = .ok [some 171, some 205, some 239] := rfl

lemma isHexDigit_ranges {c : Char} (h : isHexDigit c = true) :
    (48 ≤ c.toNat ∧ c.toNat ≤ 57) ∨ (97 ≤ c.toNat ∧ c.toNat ≤ 102) := by
  simpa [isHexDigit] using h

lemma toLowerAscii_of_isHexDigit {c : Char} (h : isHexDigit c = true) :
    toLowerAscii c = c := by
  rcases isHexDigit_ranges h with ⟨h1, h2⟩ | ⟨h1, h2⟩ <;>
    · simp only [toLowerAscii]
      rw [if_neg (by omega)]

lemma isJsWhitespace_of_isHexDigit {c : Char} (h : isHexDigit c = true) :
    isJsWhitespace c = false := by
  rcases isHexDigit_ranges h with ⟨h1, h2⟩ | ⟨h1, h2⟩ <;>
    · simp only [isJsWhitespace, decide_eq_false_iff_not]
      omega

lemma isHexDigit_ne {c : Char} (h : isHexDigit c = true) :
    c ≠ '-' ∧ c ≠ '+' ∧ c ≠ 'x' ∧ c ≠ 'X' := by
  rcases isHexDigit_ranges h with ⟨h1, h2⟩ | ⟨h1, h2⟩ <;>
    refine ⟨?_, ?_, ?_, ?_⟩ <;> (intro hc; subst hc; revert h1 h2; decide)

lemma hexVal_of_isHexDigit {c : Char} (h : isHexDigit c = true) :
    ∃ d, hexVal c = some d ∧ d ≤ 15 := by
  rcases isHexDigit_ranges h with ⟨h1, h2⟩ | ⟨h1, h2⟩
  · exact ⟨c.toNat - 48, by rw [hexVal, if_pos ⟨h1, h2⟩], by omega⟩
  · refine ⟨c.toNat - 87, ?_, by omega⟩
    rw [hexVal, if_neg (by omega), if_pos ⟨h1, h2⟩]

lemma jsParseIntHex_two_hex {a b : Char} (ha : isHexDigit a = true)
    (hb : isHexDigit b = true) :
    ∃ v : ℤ, jsParseIntHex [a, b] = some v ∧ 0 ≤ v ∧ v ≤ 255 := by
  obtain ⟨da, hda, hda15⟩ := hexVal_of_isHexDigit ha
  obtain ⟨db, hdb, hdb15⟩ := hexVal_of_isHexDigit hb
  obtain ⟨ham, hap, hax, haX⟩ := isHexDigit_ne ha
  obtain ⟨hbm, hbp, hbx, hbX⟩ := isHexDigit_ne hb
  refine ⟨((16 * da + db : ℕ) : ℤ), ?_, by positivity, by exact_mod_cast by omega⟩
  have hwa : isJsWhitespace a = false := isJsWhitespace_of_isHexDigit ha
  simp [jsParseIntHex, List.dropWhile, hwa, stripSign, strip0x, ham, hap, hax,
    haX, hbx, hbX, hexPrefixVal, hda, hdb]

lemma hasHexRun_iff (l : List Char) : hasHexRun l = true ↔ HasSixHexRun l := by
  induction l with
  | nil =>
    simp only [hasHexRun, Bool.false_eq_true, false_iff]
    rintro ⟨pre, mid, post, heq, hlen, -⟩
    have hl := congrArg List.length heq
    simp only [List.length_nil, List.length_append] at hl
    omega
  | cons c cs ih =>
    simp only [hasHexRun, Bool.or_eq_true, Bool.and_eq_true, beq_iff_eq, ih]
    constructor
    · rintro (⟨hlen, hall⟩ | ⟨pre, mid, post, heq, hlen, hall⟩)
      · exact ⟨[], (c :: cs).take 6, (c :: cs).drop 6,
          by simp [List.take_append_drop], hlen, hall⟩
      · exact ⟨c :: pre, mid, post, by simp [heq], hlen, hall⟩
    · rintro ⟨pre, mid, post, heq, hlen, hall⟩
      rcases pre with _ | ⟨p, pre⟩
      · left
        simp only [List.nil_append] at heq
        rw [heq, ← hlen, List.take_left]
        exact ⟨rfl, hall⟩
      · right
        rw [List.cons_append] at heq
        exact ⟨pre, mid, post, (List.cons.injEq _ _ _ _ ▸ heq).2, hlen, hall⟩

lemma toLowerList_of_all_hex {l : List Char} (h : l.all isHexDigit = true) :
    toLowerList l = l := by
  induction l with
  | nil => rfl
  | cons c cs ih =>
    simp only [List.all_cons, Bool.and_eq_true] at h
    simp only [toLowerList, List.map_cons]
    rw [toLowerAscii_of_isHexDigit h.1]
    have hcs := ih h.2
    simp only [toLowerList] at hcs
    rw [hcs]

lemma sanitise_preserves_run {l : List Char} (h : HasSixHexRun l) :
    HasSixHexRun (toLowerList l) := by
  obtain ⟨pre, mid, post, heq, hlen, hall⟩ := h
  refine ⟨toLowerList pre, mid, toLowerList post, ?_, hlen, hall⟩
  rw [heq]
  simp only [toLowerList, List.map_append]
  rw [show List.map toLowerAscii mid = mid from toLowerList_of_all_hex hall]

lemma stripHash_of_not_mem {l : List Char} (h : '#' ∉ l) : stripHash l = l := by
  induction l with
  | nil => rfl
  | cons c cs ih =>
    rw [stripHash,
      if_neg (fun hc => h (by rw [← hc]; exact List.mem_cons_self c cs)),
      ih (fun hm => h (List.mem_cons_of_mem _ hm))]

lemma not_mem_of_all_hex {hex : List Char}
    (h : (toLowerList hex).all isHexDigit = true) : '#' ∉ hex := by
  intro hm
  have hmem := List.all_eq_true.mp h _ (List.mem_map_of_mem toLowerAscii hm)
  revert hmem
  decide

lemma exists_six {l : List Char} (h : l.length = 6) :
    ∃ a b c d e f, l = [a, b, c, d, e, f] := by
  rcases l with _ | ⟨a, l⟩; · simp at h
  rcases l with _ | ⟨b, l⟩; · simp at h
  rcases l with _ | ⟨c, l⟩; · simp at h
  rcases l with _ | ⟨d, l⟩; · simp at h
  rcases l with _ | ⟨e, l⟩; · simp at h
  rcases l with _ | ⟨f, l⟩; · simp at h
  rcases l with _ | ⟨g, l⟩
  · exact ⟨a, b, c, d, e, f, rfl⟩
  · simp only [List.length_cons] at h
    omega

lemma convertHexToRgb_of_valid {s hex : List Char}
    (hs : s = hex ∨ s = '#' :: hex) (hlen : hex.length = 6)
    (hall : (toLowerList hex).all isHexDigit = true) :
    ∃ R G B : ℤ, convertHexToRgb s = .ok [some R, some G, some B] ∧
      0 ≤ R ∧ R ≤ 255 ∧ 0 ≤ G ∧ G ≤ 255 ∧ 0 ≤ B ∧ B ≤ 255 := by
  have hsan : sanitiseHex s = toLowerList hex := by
    rcases hs with rfl | rfl
    · unfold sanitiseHex
      rw [stripHash_of_not_mem (not_mem_of_all_hex hall)]
    · unfold sanitiseHex
      rw [show stripHash ('#' :: hex) = hex from by simp [stripHash]]
  have hlen6 : (toLowerList hex).length = 6 := by simp [toLowerList, hlen]
  obtain ⟨a, b, c, d, e, f, habc⟩ := exists_six hlen6
  rw [habc] at hall hsan
  simp only [List.all_cons, List.all_nil, Bool.and_eq_true, Bool.and_true] at hall
  obtain ⟨hha, hhb, hhc, hhd, hhe, hhf⟩ := hall
  obtain ⟨R, hR, hR0, hR1⟩ := jsParseIntHex_two_hex hha hhb
  obtain ⟨G, hG, hG0, hG1⟩ := jsParseIntHex_two_hex hhc hhd
  obtain ⟨B, hB, hB0, hB1⟩ := jsParseIntHex_two_hex hhe hhf
  refine ⟨R, G, B, ?_, hR0, hR1, hG0, hG1, hB0, hB1⟩
  unfold convertHexToRgb
  rw [hsan]
  simp [validateHexString, rgbChannelsOf, hR, hG, hB]

lemma component2_cons (r g b : ℝ) :
    calculateRelativeLuminanceComponent2 [some r, some g, some b] =
      some (0.2126 * luminanceComponent1Val r + 0.7152 * luminanceComponent1Val g
        + 0.0722 * luminanceComponent1Val b) := rfl

lemma luminanceComponent1Val_eq_spec (v : ℝ) :
    luminanceComponent1Val v = specLinearComponent (v / 255) := rfl

lemma specLinearComponent_bounds {n : ℝ} (h0 : 0 ≤ n) (h1 : n ≤ 1) :
    0 ≤ specLinearComponent n ∧ specLinearComponent n ≤ 1 := by
  unfold specLinearComponent
  split_ifs with h
  · constructor
    · positivity
    · rw [div_le_one (by norm_num)]
      linarith
  · have hb0 : (0 : ℝ) ≤ (n + 0.055) / 1.055 := by positivity
    have hb1 : (n + 0.055) / 1.055 ≤ 1 := by
      rw [div_le_one (by norm_num)]
      linarith
    exact ⟨Real.rpow_nonneg hb0 _, Real.rpow_le_one hb0 hb1 (by norm_num)⟩

lemma specRelativeLuminance_bounds {r g b : ℝ} (hr0 : 0 ≤ r) (hr1 : r ≤ 255)
    (hg0 : 0 ≤ g) (hg1 : g ≤ 255) (hb0 : 0 ≤ b) (hb1 : b ≤ 255) :
    0 ≤ specRelativeLuminance r g b ∧ specRelativeLuminance r g b ≤ 1 := by
  have cr := specLinearComponent_bounds (n := r / 255) (by positivity)
    (by rw [div_le_one (by norm_num)]; linarith)
  have cg := specLinearComponent_bounds (n := g / 255) (by positivity)
    (by rw [div_le_one (by norm_num)]; linarith)
  have cb := specLinearComponent_bounds (n := b / 255) (by positivity)
    (by rw [div_le_one (by norm_num)]; linarith)
  unfold specRelativeLuminance
  constructor <;> nlinarith [cr.1, cr.2, cg.1, cg.2, cb.1, cb.2]

lemma component2_eq_spec (r g b : ℝ) :
    calculateRelativeLuminanceComponent2 [some r, some g, some b] =
      some (specRelativeLuminance r g b) := by
  rw [component2_cons]
  simp only [luminanceComponent1Val_eq_spec, specRelativeLuminance]

lemma validColor_luminance {cI : ColorContrastRatioCalculatorInput}
    (h : ValidColor cI) :
    ∃ L : ℝ, calculateRelativeLuminance cI = .ok (some L) ∧ 0 ≤ L ∧ L ≤ 1 := by
  cases cI with
  | arr l =>
    obtain ⟨r, g, b, rfl, hr0, hr1, hg0, hg1, hb0, hb1⟩ := h
    refine ⟨specRelativeLuminance r g b, ?_,
      specRelativeLuminance_bounds hr0 hr1 hg0 hg1 hb0 hb1⟩
    simp only [calculateRelativeLuminance]
    rw [if_pos (by simp : ([some r, some g, some b] : List (Option ℝ)).length = 3), component2_eq_spec]
  | str s =>
    obtain ⟨hex, hs, hlen, hall⟩ := h
    obtain ⟨R, G, B, hconv, hR0, hR1, hG0, hG1, hB0, hB1⟩ :=
      convertHexToRgb_of_valid hs hlen hall
    have hR0r : (0 : ℝ) ≤ (R : ℝ) := by exact_mod_cast hR0
    have hR1r : (R : ℝ) ≤ 255 := by exact_mod_cast hR1
    have hG0r : (0 : ℝ) ≤ (G : ℝ) := by exact_mod_cast hG0
    have hG1r : (G : ℝ) ≤ 255 := by exact_mod_cast hG1
    have hB0r : (0 : ℝ) ≤ (B : ℝ) := by exact_mod_cast hB0
    have hB1r : (B : ℝ) ≤ 255 := by exact_mod_cast hB1
    refine ⟨specRelativeLuminance (R : ℝ) (G : ℝ) (B : ℝ), ?_,
      specRelativeLuminance_bounds hR0r hR1r hG0r hG1r hB0r hB1r⟩
    simp only [calculateRelativeLuminance]
    rw [hconv]
    simp only [List.map_cons, List.map_nil, Option.map_some']
    rw [component2_eq_spec]

lemma luminanceComponent1Val_255 : luminanceComponent1Val 255 = 1 := by
  simp only [luminanceComponent1Val]
  rw [if_neg (by norm_num)]
  rw [show ((255 : ℝ) / 255 + 0.055) / 1.055 = 1 by norm_num]
  exact Real.one_rpow _

lemma luminanceComponent1Val_0 : luminanceComponent1Val 0 = 0 := by
  simp only [luminanceComponent1Val]
  rw [if_pos (by norm_num)]
  norm_num

lemma luminance_white_arr :
    calculateRelativeLuminance (.arr [some 255, some 255, some 255]) =
      .ok (some 1) := by
  simp only [calculateRelativeLuminance]
  rw [if_pos (by simp : ([some 255, some 255, some 255] : List (Option ℝ)).length = 3),
    component2_cons, luminanceComponent1Val_255]
  norm_num

lemma luminance_black_arr :
    calculateRelativeLuminance (.arr [some 0, some 0, some 0]) = .ok (some 0) := by
  simp only [calculateRelativeLuminance]
  rw [if_pos (by simp : ([some 0, some 0, some 0] : List (Option ℝ)).length = 3),
    component2_cons, luminanceComponent1Val_0]
  norm_num

lemma luminance_white_hex :
    calculateRelativeLuminance (.str "#FFFFFF".data) = .ok (some 1) := by
  simp only [calculateRelativeLuminance]
  rw [show convertHexToRgb "#FFFFFF".data = .ok [some 255, some 255, some 255]
    from rfl]
  simp only [List.map_cons, List.map_nil, Option.map_some', Int.cast_ofNat]
  rw [component2_cons, luminanceComponent1Val_255]
  norm_num

lemma luminance_black_hex :
    calculateRelativeLuminance (.str "#000000".data) = .ok (some 0) := by
  simp only [calculateRelativeLuminance]
  rw [show convertHexToRgb "#000000".data = .ok [some 0, some 0, some 0]
    from rfl]
  simp only [List.map_cons, List.map_nil, Option.map_some', Int.cast_zero]
  rw [component2_cons, luminanceComponent1Val_0]
  norm_num

lemma jsRound_eq_int (x : ℝ) (n : ℤ) (h1 : (n : ℝ) ≤ x + 1 / 2)
    (h2 : x + 1 / 2 < (n : ℝ) + 1) : jsRound x = (n : ℝ) := by
  have hfl : ⌊x + 1 / 2⌋ = n := Int.floor_eq_iff.mpr ⟨h1, by linarith⟩
  rw [jsRound, hfl]

lemma ratio_eval {a b : ColorContrastRatioCalculatorInput} {La Lb : ℝ}
    (ha : calculateRelativeLuminance a = .ok (some La))
    (hb : calculateRelativeLuminance b = .ok (some Lb)) :
    colorContrastRatioCalculator a b = .ok (some
      (if Lb < La then jsRound ((La + 0.05) / (Lb + 0.05) * 100) / 100
       else jsRound ((Lb + 0.05) / (La + 0.05) * 100) / 100)) := by
  unfold colorContrastRatioCalculator
  rw [ha, hb]

lemma ratio_self {a : ColorContrastRatioCalculatorInput} {L : ℝ}
    (ha : calculateRelativeLuminance a = .ok (some L)) (h0 : 0 ≤ L) :
    colorContrastRatioCalculator a a = .ok (some 1) := by
  rw [ratio_eval ha ha, if_neg (lt_irrefl L)]
  have hne : L + 0.05 ≠ 0 := by positivity
  rw [div_self hne, one_mul,
    jsRound_eq_int 100 100 (by norm_num) (by norm_num)]
  norm_num

lemma ratio_eval_maxmin {a b : ColorContrastRatioCalculatorInput} {La Lb : ℝ}
    (ha : calculateRelativeLuminance a = .ok (some La))
    (hb : calculateRelativeLuminance b = .ok (some Lb)) :
    colorContrastRatioCalculator a b = .ok (some
      (jsRound ((max La Lb + 0.05) / (min La Lb + 0.05) * 100) / 100)) := by
  rw [ratio_eval ha hb]
  rcases lt_or_ge Lb La with h | h
  · rw [if_pos h, max_eq_left h.le, min_eq_right h.le]
  · rw [if_neg (not_lt.mpr h), max_eq_right h, min_eq_left h]

lemma raw_ratio_bounds {La Lb : ℝ} (ha0 : 0 ≤ La) (ha1 : La ≤ 1)
    (hb0 : 0 ≤ Lb) (hb1 : Lb ≤ 1) :
    1 ≤ (max La Lb + 0.05) / (min La Lb + 0.05) ∧
      (max La Lb + 0.05) / (min La Lb + 0.05) ≤ 21 := by
  have hm0 : 0 ≤ min La Lb := le_min ha0 hb0
  have hM1 : max La Lb ≤ 1 := max_le ha1 hb1
  have hmM : min La Lb ≤ max La Lb := min_le_max
  have hden : (0 : ℝ) < min La Lb + 0.05 := by linarith
  constructor
  · rw [le_div_iff₀ hden]
    linarith
  · rw [div_le_iff₀ hden]
    linarith

lemma jsRound_ratio_bounds {R : ℝ} (h1 : 1 ≤ R) (h2 : R ≤ 21) :
    1 ≤ jsRound (R * 100) / 100 ∧ jsRound (R * 100) / 100 ≤ 21 := by
  have hfl1 : (100 : ℤ) ≤ ⌊R * 100 + 1 / 2⌋ :=
    Int.le_floor.mpr (by push_cast; linarith)
  have hfl2 : ⌊R * 100 + 1 / 2⌋ < 2101 :=
    Int.floor_lt.mpr (by push_cast; linarith)
  have hc1 : (100 : ℝ) ≤ ((⌊R * 100 + 1 / 2⌋ : ℤ) : ℝ) := by exact_mod_cast hfl1
  have hc2 : ((⌊R * 100 + 1 / 2⌋ : ℤ) : ℝ) ≤ 2100 := by
    exact_mod_cast Int.lt_add_one_iff.mp hfl2
  unfold jsRound
  constructor
  · rw [le_div_iff₀ (by norm_num : (0 : ℝ) < 100)]
    linarith
  · rw [div_le_iff₀ (by norm_num : (0 : ℝ) < 100)]
    linarith

lemma rgbChannelsOf_take6 (l : List Char) :
    rgbChannelsOf (l.take 6) = rgbChannelsOf l := by
  unfold rgbChannelsOf
  rw [List.take_take, List.drop_take, List.take_take, List.drop_take,
    List.take_take]
  norm_num

/-- Claim C1 (code-bug evaluation): contrary to the spec, on the 6-character
non-hex input "zzzzzz" the converter does NOT fail with an invalid-color
error; it returns the triple [NaN, NaN, NaN] (here [none, none, none]), and
the NaN flows through to the contrast-ratio calculation, whose result is NaN
(`.ok none`) instead of an error. -/
theorem convertHexToRgb_zzzzzz_returns_nan_triple :
    convertHexToRgb "zzzzzz".data = .ok [none, none, none] ∧
    colorContrastRatioCalculator (.str "zzzzzz".data) (.str "#FFFFFF".data) =
      .ok none := by
  refine ⟨rfl, ?_⟩
  unfold colorContrastRatioCalculator
  rw [show calculateRelativeLuminance (.str "zzzzzz".data) = .ok none from rfl,
    luminance_white_hex]

/-- Claim C2 (counterexample): the claim says `isValidHex` is true exactly on
strings of stripped length 6 and that `isValidHex "fffffff"` is false; in fact
"fffffff" has stripped length 7 and still validates, because the unanchored
regex finds a six-hex-digit run inside it. -/
theorem isValidHex_fffffff_counterexample :
    isValidHex "fffffff".data = true ∧
    (stripHash "fffffff".data).length ≠ 6 := by
  decide

/-- Claim C2 (amended): `isValidHex` returns true iff, after stripping the
first '#' and lower-casing, the string has length exactly 6 OR contains six
consecutive characters of [0-9a-f] somewhere; the listed boundary values hold
except that `isValidHex "fffffff"` is true, not false. -/
theorem isValidHex_characterisation :
    (∀ s : List Char, isValidHex s = true ↔
      ((stripHash s).length = 6 ∨ HasSixHexRun (sanitiseHex s))) ∧
    isValidHex "ffffff".data = true ∧
    isValidHex "#ffffff".data = true ∧
    isValidHex "zzzzzz".data = true ∧
    isValidHex "ffff".data = false ∧
    isValidHex "fffffff".data = true := by
  refine ⟨fun s => ?_, by decide, by decide, by decide, by decide, by decide⟩
  unfold isValidHex validateHexString
  rw [Bool.or_eq_true, beq_iff_eq, hasHexRun_iff]
  unfold sanitiseHex toLowerList
  rw [List.length_map]

/-- Claim C2 witness: the characterisation applied at the concrete inputs
"zzzzzz" and "ffff". -/
theorem isValidHex_characterisation_witness :
    (isValidHex "zzzzzz".data = true ↔
      ((stripHash "zzzzzz".data).length = 6 ∨
        HasSixHexRun (sanitiseHex "zzzzzz".data))) ∧
    isValidHex "ffff".data = false :=
  ⟨isValidHex_characterisation.1 _, isValidHex_characterisation.2.2.2.2.1⟩

/-- Claim C3: for channels in [0,255] the per-channel transform is exactly the
spec's sRGB linearisation (threshold 0.03928, divisor 12.92, gamma branch
((n+0.055)/1.055)^2.4), the channels are combined with the fixed weights
0.2126 / 0.7152 / 0.0722, and the result lies in [0, 1]. -/
theorem relativeLuminance_formula_and_bounds :
    ∀ r g b : ℝ, 0 ≤ r → r ≤ 255 → 0 ≤ g → g ≤ 255 → 0 ≤ b → b ≤ 255 →
    calculateRelativeLuminanceComponent1 (some r) =
      some (specLinearComponent (r / 255)) ∧
    calculateRelativeLuminanceComponent2 [some r, some g, some b] =
      some (specRelativeLuminance r g b) ∧
    0 ≤ specRelativeLuminance r g b ∧ specRelativeLuminance r g b ≤ 1 := by
  intro r g b hr0 hr1 hg0 hg1 hb0 hb1
  exact ⟨rfl, component2_eq_spec r g b,
    specRelativeLuminance_bounds hr0 hr1 hg0 hg1 hb0 hb1⟩

/-- Claim C3 witness: the formula and bounds at the concrete channel triple
(255, 128, 0). -/
theorem relativeLuminance_formula_and_bounds_witness :
    calculateRelativeLuminanceComponent1 (some (255 : ℝ)) =
      some (specLinearComponent ((255 : ℝ) / 255)) ∧
    calculateRelativeLuminanceComponent2 [some 255, some 128, some 0] =
      some (specRelativeLuminance 255 128 0) ∧
    0 ≤ specRelativeLuminance (255 : ℝ) 128 0 ∧
    specRelativeLuminance (255 : ℝ) 128 0 ≤ 1 :=
  relativeLuminance_formula_and_bounds 255 128 0 (by norm_num) (by norm_num)
    (by norm_num) (by norm_num) (by norm_num) (by norm_num)

/-- Claim C4: for all valid color inputs (hex strings or RGB triples in
range) the contrast ratio is symmetric in its two arguments. -/
theorem colorContrastRatioCalculator_symm :
    ∀ a b : ColorContrastRatioCalculatorInput, ValidColor a → ValidColor b →
    colorContrastRatioCalculator a b = colorContrastRatioCalculator b a := by
  intro a b hA hB
  obtain ⟨La, ha, ha0, ha1⟩ := validColor_luminance hA
  obtain ⟨Lb, hb, hb0, hb1⟩ := validColor_luminance hB
  rw [ratio_eval ha hb, ratio_eval hb ha]
  rcases lt_trichotomy La Lb with h | h | h
  · rw [if_neg (asymm h), if_pos h]
  · rw [h, if_neg (lt_irrefl Lb)]
  · rw [if_pos h, if_neg (asymm h)]

/-- Claim C4 witness: symmetry at the concrete pair (white hex string, black
RGB triple). -/
theorem colorContrastRatioCalculator_symm_witness :
    colorContrastRatioCalculator (.str "#FFFFFF".data)
        (.arr [some 0, some 0, some 0]) =
      colorContrastRatioCalculator (.arr [some 0, some 0, some 0])
        (.str "#FFFFFF".data) :=
  colorContrastRatioCalculator_symm _ _
    ⟨"FFFFFF".data, Or.inr rfl, by decide, by decide⟩
    ⟨0, 0, 0, rfl, by norm_num, by norm_num, by norm_num, by norm_num,
      by norm_num, by norm_num⟩

/-- Claim C5: for all valid color inputs the returned ratio is
(max luminance + 0.05) / (min luminance + 0.05), multiplied by 100, rounded
half-up, divided by 100, and lies in [1, 21]. -/
theorem colorContrastRatioCalculator_bounds :
    ∀ a b : ColorContrastRatioCalculatorInput, ValidColor a → ValidColor b →
    ∃ La Lb r : ℝ,
      calculateRelativeLuminance a = .ok (some La) ∧
      calculateRelativeLuminance b = .ok (some Lb) ∧
      r = jsRound ((max La Lb + 0.05) / (min La Lb + 0.05) * 100) / 100 ∧
      colorContrastRatioCalculator a b = .ok (some r) ∧ 1 ≤ r ∧ r ≤ 21 := by
  intro a b hA hB
  obtain ⟨La, ha, ha0, ha1⟩ := validColor_luminance hA
  obtain ⟨Lb, hb, hb0, hb1⟩ := validColor_luminance hB
  obtain ⟨hraw1, hraw2⟩ := raw_ratio_bounds ha0 ha1 hb0 hb1
  obtain ⟨hr1, hr2⟩ := jsRound_ratio_bounds hraw1 hraw2
  exact ⟨La, Lb, _, ha, hb, rfl, ratio_eval_maxmin ha hb, hr1, hr2⟩

/-- Claim C5 witness: the bounds at the concrete pair (white hex string,
black hex string). -/
theorem colorContrastRatioCalculator_bounds_witness :
    ∃ La Lb r : ℝ,
      calculateRelativeLuminance (.str "#FFFFFF".data) = .ok (some La) ∧
      calculateRelativeLuminance (.str "#000000".data) = .ok (some Lb) ∧
      r = jsRound ((max La Lb + 0.05) / (min La Lb + 0.05) * 100) / 100 ∧
      colorContrastRatioCalculator (.str "#FFFFFF".data) (.str "#000000".data)
        = .ok (some r) ∧ 1 ≤ r ∧ r ≤ 21 :=
  colorContrastRatioCalculator_bounds _ _
    ⟨"FFFFFF".data, Or.inr rfl, by decide, by decide⟩
    ⟨"000000".data, Or.inr rfl, by decide, by decide⟩

/-- Claim C6: white against black gives exactly 21, both as hex strings and
as RGB triples, and every valid color against itself gives exactly 1. -/
theorem colorContrastRatioCalculator_extremes_and_self :
    colorContrastRatioCalculator (.str "#FFFFFF".data) (.str "#000000".data) =
      .ok (some 21) ∧
    colorContrastRatioCalculator (.arr [some 255, some 255, some 255])
      (.arr [some 0, some 0, some 0]) = .ok (some 21) ∧
    ∀ a : ColorContrastRatioCalculatorInput, ValidColor a →
      colorContrastRatioCalculator a a = .ok (some 1) := by
  refine ⟨?_, ?_, fun a hA => ?_⟩
  · rw [ratio_eval luminance_white_hex luminance_black_hex,
      if_pos (by norm_num : (0 : ℝ) < 1),
      show ((1 : ℝ) + 0.05) / (0 + 0.05) * 100 = 2100 by norm_num,
      jsRound_eq_int 2100 2100 (by norm_num) (by norm_num)]
    norm_num
  · rw [ratio_eval luminance_white_arr luminance_black_arr,
      if_pos (by norm_num : (0 : ℝ) < 1),
      show ((1 : ℝ) + 0.05) / (0 + 0.05) * 100 = 2100 by norm_num,
      jsRound_eq_int 2100 2100 (by norm_num) (by norm_num)]
    norm_num
  · obtain ⟨L, hL, h0, -⟩ := validColor_luminance hA
    exact ratio_self hL h0

/-- Claim C6 witness: self-contrast applied at the concrete white RGB
triple. -/
theorem colorContrastRatioCalculator_extremes_and_self_witness :
    colorContrastRatioCalculator (.arr [some 255, some 255, some 255])
      (.arr [some 255, some 255, some 255]) = .ok (some 1) :=
  colorContrastRatioCalculator_extremes_and_self.2.2 _
    ⟨255, 255, 255, rfl, by norm_num, by norm_num, by norm_num, by norm_num,
      by norm_num, by norm_num⟩

/-- Claim C7: when the entered string fails hex validation, both input-commit
handlers leave the widget state unchanged and emit the notification
"Please enter a valid HEX value" instead of an error object. -/
theorem invalid_input_leaves_state_unchanged :
    ∀ (st : WidgetState) (input : List Char),
      validateHexString (sanitiseHex input) = false →
      validateForegroundInput st input =
        (st, some "Please enter a valid HEX value") ∧
      validateBackgroundInput st input =
        (st, some "Please enter a valid HEX value") := by
  intro st input h
  constructor <;>
    simp [validateForegroundInput, validateBackgroundInput, h]

/-- Claim C7 witness: the handlers at the widget's default state with the
invalid entry "ff". -/
theorem invalid_input_leaves_state_unchanged_witness :
    validateForegroundInput ⟨"#898989".data, "#454545".data⟩ "ff".data =
      (⟨"#898989".data, "#454545".data⟩, some "Please enter a valid HEX value") ∧
    validateBackgroundInput ⟨"#898989".data, "#454545".data⟩ "ff".data =
      (⟨"#898989".data, "#454545".data⟩, some "Please enter a valid HEX value") :=
  invalid_input_leaves_state_unchanged _ _ (by decide)

/-- Claim C8: because the regex is unanchored, any input whose stripped form
contains six consecutive hex digits anywhere validates, and the converter
then returns a triple computed from the FIRST six characters of the
sanitised string only (it never fails on such inputs). -/
theorem unanchored_regex_accepts_any_run :
    ∀ s : List Char, HasSixHexRun (stripHash s) →
      validateHexString (sanitiseHex s) = true ∧
      convertHexToRgb s = .ok (rgbChannelsOf ((sanitiseHex s).take 6)) := by
  intro s h
  have h2 : HasSixHexRun (sanitiseHex s) := sanitise_preserves_run h
  have hv : validateHexString (sanitiseHex s) = true := by
    unfold validateHexString
    rw [Bool.or_eq_true]
    exact Or.inr ((hasHexRun_iff _).mpr h2)
  refine ⟨hv, ?_⟩
  unfold convertHexToRgb
  simp only [hv, if_true]
  rw [rgbChannelsOf_take6]

/-- Claim C8 witness: the 7-character input "fffffff" (stripped length 7)
validates and converts from its first six characters. -/
theorem unanchored_regex_accepts_any_run_witness :
    validateHexString (sanitiseHex "fffffff".data) = true ∧
    convertHexToRgb "fffffff".data =
      .ok (rgbChannelsOf ((sanitiseHex "fffffff".data).take 6)) :=
  unanchored_regex_accepts_any_run _
    ⟨[], "ffffff".data, ['f'], by decide, by decide, by decide⟩

/-- Claim C9: base-16 prefix parsing makes some invalid 6-character inputs
produce finite channels: "fz" parses to 15, the non-hex input "fzfzfz"
converts to the finite triple [15, 15, 15], and a finite (non-NaN) contrast
ratio comes out. -/
theorem nonhex_pairs_can_parse_finite :
    jsParseIntHex ['f', 'z'] = some 15 ∧
    ("fzfzfz".data.length = 6 ∧ isHexDigit 'z' = false) ∧
    convertHexToRgb "fzfzfz".data = .ok [some 15, some 15, some 15] ∧
    ∃ r : ℝ, colorContrastRatioCalculator (.str "fzfzfz".data)
      (.str "#FFFFFF".data) = .ok (some r) := by
  refine ⟨by decide, ⟨by decide, by decide⟩, rfl, ?_⟩
  have hfz : calculateRelativeLuminance (.str "fzfzfz".data) =
      .ok (some (0.2126 * luminanceComponent1Val 15
        + 0.7152 * luminanceComponent1Val 15
        + 0.0722 * luminanceComponent1Val 15)) := by
    simp only [calculateRelativeLuminance]
    rw [show convertHexToRgb "fzfzfz".data = .ok [some 15, some 15, some 15]
      from rfl]
    simp only [List.map_cons, List.map_nil, Option.map_some', Int.cast_ofNat]
    rw [component2_cons]
  rw [ratio_eval hfz luminance_white_hex]
  exact ⟨_, rfl⟩

/-- Claim C10: the '#' stripping removes the first '#' occurring anywhere in
the string; whenever that removal leaves exactly 6 characters (for example
"abc#def") validation succeeds and conversion proceeds on the concatenated
remainder. -/
theorem stripHash_removes_first_anywhere :
    (∀ s : List Char, (stripHash s).length = 6 →
      validateHexString (sanitiseHex s) = true ∧
      ∃ t, convertHexToRgb s = .ok t) ∧
    stripHash "abc#def".data = "abcdef".data ∧
    convertHexToRgb "abc#def".data = .ok [some 171, some 205, some 239] := by
  refine ⟨fun s h => ?_, by decide, rfl⟩
  have hv : validateHexString (sanitiseHex s) = true := by
    unfold validateHexString
    rw [Bool.or_eq_true, beq_iff_eq]
    left
    unfold sanitiseHex toLowerList
    rw [List.length_map]
    exact h
  refine ⟨hv, ?_⟩
  unfold convertHexToRgb
  simp only [hv, if_true]
  exact ⟨_, rfl⟩

/-- Claim C10 witness: the general statement applied at the concrete input
"abc#def". -/
theorem stripHash_removes_first_anywhere_witness :
    validateHexString (sanitiseHex "abc#def".data) = true ∧
    ∃ t, convertHexToRgb "abc#def".data = .ok t :=
  stripHash_removes_first_anywhere.1 _ (by decide)

end ColorContrast
